import Mathlib

/-!
Verification development for the PDF layout optimizer
(`ReportEngine/renderers/pdf_layout_optimizer.py`).

The Python module is shallowly embedded:
* the six layout dataclasses and `PDFLayoutConfig` become Lean structures
  (integer fields as `Nat`, the float line-height multipliers as `ℚ`,
  string fields as `String`);
* the document IR (nested dicts discriminated by a `type` key) becomes the
  inductive `DocNode`, keeping exactly the fields the analyzer reads;
* the stateful methods of `PDFLayoutOptimizer` are embedded with explicit
  state passing: the per-instance `optimization_log` list is an explicit
  argument/result;
* persistence is embedded at the JSON-value level: `save_config` produces a
  `SavedConfigFile` value, `load_config` consumes an `Option SavedConfigFile`
  (`none` models a non-existent path), and Python `KeyError`s become
  `Except.error`.
-/

/-- `KPICardLayout` dataclass. -/
structure KPICardLayout where
  font_size_value : Nat := 32
  font_size_label : Nat := 14
  font_size_change : Nat := 13
  padding : Nat := 20
  min_height : Nat := 120
  value_max_length : Nat := 10
deriving DecidableEq

/-- `CalloutLayout` dataclass. -/
structure CalloutLayout where
  font_size_title : Nat := 16
  font_size_content : Nat := 14
  padding : Nat := 20
  line_height : ℚ := 1.6
  max_width : String := "100%"
deriving DecidableEq

/-- `TableLayout` dataclass. -/
structure TableLayout where
  font_size_header : Nat := 13
  font_size_body : Nat := 12
  cell_padding : Nat := 12
  max_cell_width : Nat := 200
  overflow_strategy : String := "wrap"
deriving DecidableEq

/-- `ChartLayout` dataclass. -/
structure ChartLayout where
  font_size_title : Nat := 16
  font_size_label : Nat := 12
  min_height : Nat := 300
  max_height : Nat := 600
  padding : Nat := 20
deriving DecidableEq

/-- `GridLayout` dataclass. -/
structure GridLayout where
  columns : Nat := 2
  gap : Nat := 20
  responsive_breakpoint : Nat := 768
deriving DecidableEq

/-- `PageLayout` dataclass. -/
structure PageLayout where
  font_size_base : Nat := 14
  font_size_h1 : Nat := 28
  font_size_h2 : Nat := 24
  font_size_h3 : Nat := 20
  font_size_h4 : Nat := 16
  line_height : ℚ := 1.6
  paragraph_spacing : Nat := 16
  section_spacing : Nat := 32
  page_padding : Nat := 40
  max_content_width : Nat := 800
deriving DecidableEq

/-- `PDFLayoutConfig` dataclass: six sub-records plus four boolean switches. -/
structure PDFLayoutConfig where
  page : PageLayout
  kpi_card : KPICardLayout
  callout : CalloutLayout
  table : TableLayout
  chart : ChartLayout
  grid : GridLayout
  auto_adjust_font_size : Bool := true
  auto_adjust_grid_columns : Bool := true
  prevent_orphan_headers : Bool := true
  optimize_for_print : Bool := true
deriving DecidableEq

/-- `PDFLayoutOptimizer._create_default_config`: every sub-record at its
dataclass defaults. -/
def createDefaultConfig : PDFLayoutConfig :=
  { page := {}, kpi_card := {}, callout := {}, table := {}, chart := {},
    grid := {} }

/-- The statistics dict built by `_analyze_document`, with its initial
values as the field defaults. -/
structure DocumentStats where
  kpi_count : Nat := 0
  table_count : Nat := 0
  chart_count : Nat := 0
  callout_count : Nat := 0
  max_kpi_value_length : Nat := 0
  max_table_columns : Nat := 0
  max_table_rows : Nat := 0
  total_content_length : Nat := 0
  has_long_text : Bool := false
deriving DecidableEq

/-- A KPI item inside a `kpi_grid` node.  In the source each KPI is a dict
and the analyzer reads `str(kpi.get('value', ''))`; we model the value
already converted to its string representation. -/
structure KPIItem where
  value : String

/-- A child node of a section, discriminated in the source by the `type`
key; only the fields the analyzer reads are kept.  `sect` stands for the
source's `section` node type (`section` is a Lean keyword); `other` covers
every unrecognized node type, which the analyzer ignores. -/
inductive DocNode where
  | kpi_grid (kpis : List KPIItem)
  | table (headers : List String) (rows : List (List String))
  | chart
  | callout (content : String)
  | paragraph (text : String)
  | sect (children : List DocNode)
  | other

/-- A top-level section of the document IR: `_analyze_section` reads only
its `children` list. -/
structure SectionNode where
  children : List DocNode

mutual
/-- The per-child branch of `PDFLayoutOptimizer._analyze_section`: one
iteration of the `for child in children` loop, updating the running
statistics. -/
def analyzeNode (child : DocNode) (stats : DocumentStats) : DocumentStats :=
  match child with
  | .kpi_grid kpis =>
      let stats := { stats with kpi_count := stats.kpi_count + kpis.length }
      kpis.foldl
        (fun st kpi =>
          { st with
            max_kpi_value_length := max st.max_kpi_value_length kpi.value.length })
        stats
  | .table headers rows =>
      let stats := { stats with table_count := stats.table_count + 1 }
      let stats := { stats with
        max_table_columns := max stats.max_table_columns headers.length }
      { stats with max_table_rows := max stats.max_table_rows rows.length }
  | .chart => { stats with chart_count := stats.chart_count + 1 }
  | .callout content =>
      let stats := { stats with callout_count := stats.callout_count + 1 }
      if 200 < content.length then { stats with has_long_text := true }
      else stats
  | .paragraph text =>
      let stats := { stats with
        total_content_length := stats.total_content_length + text.length }
      if 500 < text.length then { stats with has_long_text := true }
      else stats
  | .sect children => analyzeChildren children stats
  | .other => stats

/-- The loop body of `_analyze_section` over a `children` list. -/
def analyzeChildren (children : List DocNode) (stats : DocumentStats) :
    DocumentStats :=
  match children with
  | [] => stats
  | c :: cs => analyzeChildren cs (analyzeNode c stats)
end

/-- `PDFLayoutOptimizer._analyze_document`: fresh zeroed statistics folded
over the document's top-level sections. -/
def analyzeDocument (sections : List SectionNode) : DocumentStats :=
  sections.foldl (fun st sec => analyzeChildren sec.children st) {}

/-- Log message of the `max_kpi_value_length > 10` branch. -/
def msgKpiLong (n : Nat) : String :=
  "KPI数值过长(" ++ toString n ++ "字符)，字号从32调整为28"

/-- Log message of the (unreachable) `max_kpi_value_length > 15` branch. -/
def msgKpiVeryLong (n : Nat) : String :=
  "KPI数值很长(" ++ toString n ++ "字符)，字号从32调整为24"

/-- Log message of the `kpi_count > 6` branch. -/
def msgKpiMany (n : Nat) : String :=
  "KPI卡片较多(" ++ toString n ++ "个)，每行列数从2调整为3"

/-- Log message of the `kpi_count <= 2` branch. -/
def msgKpiFew (n : Nat) : String :=
  "KPI卡片较少(" ++ toString n ++ "个)，每行列数从2调整为1"

/-- Log message of the `max_table_columns > 6` branch. -/
def msgTableCols (n : Nat) : String :=
  "表格列数较多(" ++ toString n ++ "列)，缩小字号和内边距"

/-- Log message of the `has_long_text` branch. -/
def msgLongText : String := "检测到长文本，增加行高至1.8提高可读性"

/-- First rule block of `_adjust_config_based_on_stats`: the
`if max_kpi_value_length > 10 / elif > 15` chain adjusting the KPI value
font size.  The pair is (config copy, `self.optimization_log`). -/
def rule1KpiFontSize (stats : DocumentStats)
    (p : PDFLayoutConfig × List String) : PDFLayoutConfig × List String :=
  if 10 < stats.max_kpi_value_length then
    ({ p.1 with kpi_card := { p.1.kpi_card with font_size_value := 28 } },
     p.2 ++ [msgKpiLong stats.max_kpi_value_length])
  else if 15 < stats.max_kpi_value_length then
    ({ p.1 with kpi_card := { p.1.kpi_card with font_size_value := 24 } },
     p.2 ++ [msgKpiVeryLong stats.max_kpi_value_length])
  else p

/-- Second rule block: the `if kpi_count > 6 / elif kpi_count <= 2` chain
adjusting grid columns and KPI card minimum height. -/
def rule23GridColumns (stats : DocumentStats)
    (p : PDFLayoutConfig × List String) : PDFLayoutConfig × List String :=
  if 6 < stats.kpi_count then
    ({ p.1 with
        grid := { p.1.grid with columns := 3 },
        kpi_card := { p.1.kpi_card with min_height := 100 } },
     p.2 ++ [msgKpiMany stats.kpi_count])
  else if stats.kpi_count ≤ 2 then
    ({ p.1 with grid := { p.1.grid with columns := 1 } },
     p.2 ++ [msgKpiFew stats.kpi_count])
  else p

/-- Third rule block: the `if max_table_columns > 6` branch shrinking table
fonts and cell padding. -/
def rule4TableFont (stats : DocumentStats)
    (p : PDFLayoutConfig × List String) : PDFLayoutConfig × List String :=
  if 6 < stats.max_table_columns then
    ({ p.1 with
        table := { p.1.table with
          font_size_header := 11, font_size_body := 10, cell_padding := 8 } },
     p.2 ++ [msgTableCols stats.max_table_columns])
  else p

/-- Fourth rule block: the `if has_long_text` branch raising page and
callout line heights. -/
def rule5LineHeight (stats : DocumentStats)
    (p : PDFLayoutConfig × List String) : PDFLayoutConfig × List String :=
  if stats.has_long_text then
    ({ p.1 with
        page := { p.1.page with line_height := 1.8 },
        callout := { p.1.callout with line_height := 1.8 } },
     p.2 ++ [msgLongText])
  else p

/-- `PDFLayoutOptimizer._adjust_config_based_on_stats`.  The method builds a
deep copy of `self.config`, mutates the copy through the four rule blocks,
and appends one message to `self.optimization_log` per fired rule.  The
instance state is passed explicitly: `log` is `self.optimization_log` on
entry; the result is the adjusted config together with
`self.optimization_log` on exit. -/
def adjustConfigBasedOnStats (selfConfig : PDFLayoutConfig)
    (log : List String) (stats : DocumentStats) :
    PDFLayoutConfig × List String :=
  rule5LineHeight stats
    (rule4TableFont stats
      (rule23GridColumns stats
        (rule1KpiFontSize stats (selfConfig, log))))

/-- The mutable state of a `PDFLayoutOptimizer` instance: its `config` and
its `optimization_log`. -/
structure PDFLayoutOptimizer where
  config : PDFLayoutConfig
  optimization_log : List String
deriving DecidableEq

/-- `PDFLayoutOptimizer.__init__`: `config or default`, empty log. -/
def initOptimizer (config : Option PDFLayoutConfig) : PDFLayoutOptimizer :=
  { config := config.getD createDefaultConfig, optimization_log := [] }

/-- The `config` sub-dict granularity of the persisted JSON object.  Each
sub-record key of the `config` dict is either present (as a full record,
matching what `asdict` of the dataclass writes) or absent; likewise the
four boolean switch keys. -/
structure ConfigDict where
  page : Option PageLayout
  kpi_card : Option KPICardLayout
  callout : Option CalloutLayout
  table : Option TableLayout
  chart : Option ChartLayout
  grid : Option GridLayout
  auto_adjust_font_size : Option Bool
  auto_adjust_grid_columns : Option Bool
  prevent_orphan_headers : Option Bool
  optimize_for_print : Option Bool
deriving DecidableEq

/-- `PDFLayoutConfig.to_dict`: every key written. -/
def PDFLayoutConfig.toDict (c : PDFLayoutConfig) : ConfigDict :=
  { page := some c.page, kpi_card := some c.kpi_card,
    callout := some c.callout, table := some c.table, chart := some c.chart,
    grid := some c.grid,
    auto_adjust_font_size := some c.auto_adjust_font_size,
    auto_adjust_grid_columns := some c.auto_adjust_grid_columns,
    prevent_orphan_headers := some c.prevent_orphan_headers,
    optimize_for_print := some c.optimize_for_print }

/-- Python dict subscription `data[key]`: raises `KeyError` when absent. -/
def dictGet {α : Type} (o : Option α) (key : String) : Except String α :=
  match o with
  | some v => Except.ok v
  | none => Except.error ("KeyError: " ++ key)

/-- `PDFLayoutConfig.from_dict`: the six sub-records are read with `data[k]`
(a missing one raises `KeyError`), the four switches with
`data.get(k, True)`. -/
def PDFLayoutConfig.fromDict (d : ConfigDict) : Except String PDFLayoutConfig := do
  let page ← dictGet d.page "page"
  let kpi_card ← dictGet d.kpi_card "kpi_card"
  let callout ← dictGet d.callout "callout"
  let table ← dictGet d.table "table"
  let chart ← dictGet d.chart "chart"
  let grid ← dictGet d.grid "grid"
  Except.ok
    { page := page, kpi_card := kpi_card, callout := callout, table := table,
      chart := chart, grid := grid,
      auto_adjust_font_size := d.auto_adjust_font_size.getD true,
      auto_adjust_grid_columns := d.auto_adjust_grid_columns.getD true,
      prevent_orphan_headers := d.prevent_orphan_headers.getD true,
      optimize_for_print := d.optimize_for_print.getD true }

/-- The `log_entry` dict built by `_log_optimization` (its wall-clock
`timestamp` field is outside the embedding and omitted). -/
structure OptimizationRecord where
  document_stats : DocumentStats
  optimizations : List String
  final_config : ConfigDict
deriving DecidableEq

/-- `PDFLayoutOptimizer._log_optimization`: builds the log entry from a copy
of `self.optimization_log`, then clears the instance log.  Returns the
entry together with the updated instance state. -/
def logOptimization (self : PDFLayoutOptimizer) (stats : DocumentStats)
    (config : PDFLayoutConfig) : OptimizationRecord × PDFLayoutOptimizer :=
  ({ document_stats := stats, optimizations := self.optimization_log,
     final_config := config.toDict },
   { self with optimization_log := [] })

/-- `PDFLayoutOptimizer.optimize_for_document`: analyze, adjust, log (which
clears the instance log), and return the optimized config.  The result is
the instance state after the call together with the returned config. -/
def optimizeForDocument (self : PDFLayoutOptimizer)
    (sections : List SectionNode) : PDFLayoutOptimizer × PDFLayoutConfig :=
  let stats := analyzeDocument sections
  let adjusted := adjustConfigBasedOnStats self.config self.optimization_log stats
  let afterAdjust : PDFLayoutOptimizer :=
    { self with optimization_log := adjusted.2 }
  let logged := logOptimization afterAdjust stats adjusted.1
  (logged.2, adjusted.1)

/-- The JSON object written by `save_config`: a `config` dict plus an
optional `optimization_log` entry. -/
structure SavedConfigFile where
  config : ConfigDict
  optimization_log : Option OptimizationRecord
deriving DecidableEq

/-- `PDFLayoutOptimizer.save_config`: the JSON value written to the file
(filesystem path handling is outside the embedding; `json.dump` followed by
`json.load` is the identity on this value). -/
def saveConfig (self : PDFLayoutOptimizer)
    (log_entry : Option OptimizationRecord) : SavedConfigFile :=
  { config := self.config.toDict, optimization_log := log_entry }

/-- `PDFLayoutOptimizer.load_config`: `none` models a path that does not
exist (warning branch: a fresh optimizer with the default config); `some`
models an existing file whose parsed JSON value is given.  A `KeyError`
raised by `from_dict` surfaces as `Except.error`. -/
def loadConfig (file : Option SavedConfigFile) :
    Except String PDFLayoutOptimizer :=
  match file with
  | none => Except.ok (initOptimizer none)
  | some data => do
      let config ← PDFLayoutConfig.fromDict data.config
      Except.ok (initOptimizer (some config))

/-- Rendering of a line-height multiplier into the stylesheet.  Python
prints its floats in decimal notation; `toString` on `ℚ` differs in spelling
but no claim inspects these interpolated spans, only the literal text
around them. -/
def ratStr (q : ℚ) : String := toString q

/-- `PDFLayoutOptimizer.generate_pdf_css`: the f-string transcribed chunk by
chunk, with each interpolation replaced by `toString`/`ratStr` of the
corresponding config field.  The five blocks carrying pagination hints are
parenthesized as sub-concatenations. -/
def generatePdfCss (self : PDFLayoutOptimizer) : String :=
  let cfg := self.config
  "\n/* PDF布局优化样式 - 由PDFLayoutOptimizer自动生成 */\n\n/* 页面基础样式 */\nbody \x7b\n    font-size: "
  ++ toString cfg.page.font_size_base
  ++ "px;\n    line-height: "
  ++ ratStr cfg.page.line_height
  ++ ";\n\x7d\n\nmain \x7b\n    padding: "
  ++ toString cfg.page.page_padding
  ++ "px !important;\n    max-width: "
  ++ toString cfg.page.max_content_width
  ++ "px;\n    margin: 0 auto;\n\x7d\n\n/* 标题样式 */\nh1 \x7b font-size: "
  ++ toString cfg.page.font_size_h1
  ++ "px !important; \x7d\nh2 \x7b font-size: "
  ++ toString cfg.page.font_size_h2
  ++ "px !important; \x7d\nh3 \x7b font-size: "
  ++ toString cfg.page.font_size_h3
  ++ "px !important; \x7d\nh4 \x7b font-size: "
  ++ toString cfg.page.font_size_h4
  ++ "px !important; \x7d\n\n/* 段落间距 */\np \x7b\n    margin-bottom: "
  ++ toString cfg.page.paragraph_spacing
  ++ "px;\n\x7d\n\n.chapter \x7b\n    margin-bottom: "
  ++ toString cfg.page.section_spacing
  ++ "px;\n\x7d\n\n/* KPI卡片优化 */\n.kpi-grid \x7b\n    display: grid;\n    grid-template-columns: repeat("
  ++ toString cfg.grid.columns
  ++ ", 1fr);\n    gap: "
  ++ toString cfg.grid.gap
  ++ "px;\n    margin: 20px 0;\n\x7d\n\n"
  ++ (".kpi-card \x7b\n    padding: "
      ++ toString cfg.kpi_card.padding
      ++ "px !important;\n    min-height: "
      ++ toString cfg.kpi_card.min_height
      ++ "px;\n    break-inside: avoid;\n    page-break-inside: avoid;\n\x7d")
  ++ "\n\n.kpi-card .value \x7b\n    font-size: "
  ++ toString cfg.kpi_card.font_size_value
  ++ "px !important;\n    line-height: 1.2;\n    word-break: break-word;\n\x7d\n\n.kpi-card .label \x7b\n    font-size: "
  ++ toString cfg.kpi_card.font_size_label
  ++ "px !important;\n\x7d\n\n.kpi-card .change \x7b\n    font-size: "
  ++ toString cfg.kpi_card.font_size_change
  ++ "px !important;\n\x7d\n\n/* 提示框优化 */\n"
  ++ (".callout \x7b\n    padding: "
      ++ toString cfg.callout.padding
      ++ "px !important;\n    margin: 20px 0;\n    line-height: "
      ++ ratStr cfg.callout.line_height
      ++ ";\n    break-inside: avoid;\n    page-break-inside: avoid;\n\x7d")
  ++ "\n\n.callout-title \x7b\n    font-size: "
  ++ toString cfg.callout.font_size_title
  ++ "px !important;\n    margin-bottom: 10px;\n\x7d\n\n.callout-content \x7b\n    font-size: "
  ++ toString cfg.callout.font_size_content
  ++ "px !important;\n\x7d\n\n/* 表格优化 */\n"
  ++ "table \x7b\n    width: 100%;\n    break-inside: avoid;\n    page-break-inside: avoid;\n\x7d"
  ++ "\n\nth \x7b\n    font-size: "
  ++ toString cfg.table.font_size_header
  ++ "px !important;\n    padding: "
  ++ toString cfg.table.cell_padding
  ++ "px !important;\n\x7d\n\ntd \x7b\n    font-size: "
  ++ toString cfg.table.font_size_body
  ++ "px !important;\n    padding: "
  ++ toString cfg.table.cell_padding
  ++ "px !important;\n    max-width: "
  ++ toString cfg.table.max_cell_width
  ++ "px;\n    word-wrap: break-word;\n    overflow-wrap: break-word;\n\x7d\n\n/* 图表优化 */\n"
  ++ (".chart-card \x7b\n    min-height: "
      ++ toString cfg.chart.min_height
      ++ "px;\n    max-height: "
      ++ toString cfg.chart.max_height
      ++ "px;\n    padding: "
      ++ toString cfg.chart.padding
      ++ "px;\n    break-inside: avoid;\n    page-break-inside: avoid;\n\x7d")
  ++ "\n\n.chart-title \x7b\n    font-size: "
  ++ toString cfg.chart.font_size_title
  ++ "px !important;\n\x7d\n\n/* 防止标题孤行 */\n"
  ++ "h1, h2, h3, h4, h5, h6 \x7b\n    break-after: avoid;\n    page-break-after: avoid;\n\x7d"
  ++ "\n\n/* 确保内容块不被分页 */\n.content-block \x7b\n    break-inside: avoid;\n    page-break-inside: avoid;\n\x7d\n"

mutual
/-- Spec-side predicate (follows the claim's words): a node contains long
text when it is a paragraph of more than 500 characters, a callout whose
content has more than 200 characters, or a section containing such a node. -/
def specLongNode : DocNode → Bool
  | .paragraph t => decide (500 < t.length)
  | .callout c => decide (200 < c.length)
  | .sect cs => specLongChildren cs
  | _ => false

/-- Spec-side predicate over a children list. -/
def specLongChildren : List DocNode → Bool
  | [] => false
  | c :: cs => specLongNode c || specLongChildren cs
end

/-- Spec-side predicate over a whole document. -/
def specLongSections (sections : List SectionNode) : Bool :=
  sections.any fun sec => specLongChildren sec.children

/-- `hay` contains `needle` as a contiguous substring (stated over the
underlying character lists). -/
def containsStr (hay needle : String) : Prop :=
  ∃ p q : List Char, hay.data = p ++ needle.data ++ q

/-- Sample statistics and documents used by the concrete witnesses. -/
def statsKpiLen16 : DocumentStats := { max_kpi_value_length := 16 }

/-- Sample statistics: seven KPI cards. -/
def statsKpi7 : DocumentStats := { kpi_count := 7 }

/-- Sample statistics: two KPI cards. -/
def statsKpi2 : DocumentStats := { kpi_count := 2 }

/-- Sample statistics: four KPI cards. -/
def statsKpi4 : DocumentStats := { kpi_count := 4 }

/-- Sample statistics: a seven-column table. -/
def statsCols7 : DocumentStats := { max_table_columns := 7 }

/-- Sample statistics: a six-column table. -/
def statsCols6 : DocumentStats := { max_table_columns := 6 }

/-- Sample statistics: long text detected. -/
def statsLongText : DocumentStats := { has_long_text := true }

/-- A paragraph text of 501 characters. -/
def longParaText : String := String.mk (List.replicate 501 'a')

/-- A paragraph text of 400 characters. -/
def shortParaText : String := String.mk (List.replicate 400 'a')

/-- A document whose single section holds one 501-character paragraph. -/
def docLongPara : List SectionNode := [{ children := [.paragraph longParaText] }]

/-- A document whose sections hold only 400-character paragraphs. -/
def docShortParas : List SectionNode :=
  [{ children := [.paragraph shortParaText, .paragraph shortParaText] }]

/-- A parsed config dict whose `page` sub-record key is absent. -/
def dictMissingPage : ConfigDict :=
  { page := none, kpi_card := some {}, callout := some {}, table := some {},
    chart := some {}, grid := some {}, auto_adjust_font_size := some true,
    auto_adjust_grid_columns := some true, prevent_orphan_headers := some true,
    optimize_for_print := some true }

/-- A parsed config dict with all six sub-records present but all four
boolean switch keys absent. -/
def dictNoSwitches : ConfigDict :=
  { page := some {}, kpi_card := some {}, callout := some {}, table := some {},
    chart := some {}, grid := some {}, auto_adjust_font_size := none,
    auto_adjust_grid_columns := none, prevent_orphan_headers := none,
    optimize_for_print := none }

/-- The KPI inner loop only updates `max_kpi_value_length`. -/
theorem foldl_kpi_has_long (kpis : List KPIItem) (s : DocumentStats) :
    (kpis.foldl
      (fun st kpi =>
        { st with
          max_kpi_value_length := max st.max_kpi_value_length kpi.value.length })
      s).has_long_text = s.has_long_text := by
  induction kpis generalizing s with
  | nil => rfl
  | cons k ks ih => simp [List.foldl_cons, ih]

mutual
/-- Analyzing one node ORs `specLongNode` into the running
`has_long_text` flag and never resets it. -/
theorem analyzeNode_has_long (n : DocNode) (s : DocumentStats) :
    (analyzeNode n s).has_long_text = (s.has_long_text || specLongNode n) := by
  cases n with
  | kpi_grid kpis => simp [analyzeNode, specLongNode, foldl_kpi_has_long]
  | table headers rows => simp [analyzeNode, specLongNode]
  | chart => simp [analyzeNode, specLongNode]
  | callout c =>
      simp only [analyzeNode, specLongNode]
      split <;> simp_all
  | paragraph t =>
      simp only [analyzeNode, specLongNode]
      split <;> simp_all
  | sect cs => simpa [analyzeNode, specLongNode] using analyzeChildren_has_long cs s
  | other => simp [analyzeNode, specLongNode]

/-- Analyzing a children list ORs `specLongChildren` into the running
`has_long_text` flag. -/
theorem analyzeChildren_has_long (l : List DocNode) (s : DocumentStats) :
    (analyzeChildren l s).has_long_text = (s.has_long_text || specLongChildren l) := by
  cases l with
  | nil => simp [analyzeChildren, specLongChildren]
  | cons c cs =>
      rw [analyzeChildren, analyzeChildren_has_long cs, analyzeNode_has_long c,
        specLongChildren]
      simp [Bool.or_assoc]
end

/-- Folding the analyzer over sections ORs `specLongChildren` of every
section into the flag. -/
theorem foldl_sections_has_long (sections : List SectionNode) (s : DocumentStats) :
    ((sections.foldl (fun st sec => analyzeChildren sec.children st) s).has_long_text)
      = (s.has_long_text || sections.any fun sec => specLongChildren sec.children) := by
  induction sections generalizing s with
  | nil => simp
  | cons sec secs ih =>
      rw [List.foldl_cons, ih, analyzeChildren_has_long]
      simp [Bool.or_assoc]

theorem containsStr_self (s : String) : containsStr s s :=
  ⟨[], [], by simp⟩

theorem containsStr_append_left {a n : String} (b : String)
    (h : containsStr a n) : containsStr (a ++ b) n := by
  obtain ⟨p, q, hp⟩ := h
  exact ⟨p, q ++ b.data, by simp [hp]⟩

theorem containsStr_append_right {b n : String} (a : String)
    (h : containsStr b n) : containsStr (a ++ b) n := by
  obtain ⟨p, q, hp⟩ := h
  exact ⟨a.data ++ p, q, by simp [hp]⟩

/-- C1: whenever `stats.max_kpi_value_length > 10` the adjusted config's KPI
value font size is 28 and the corresponding entry is recorded; the stricter
`> 15` branch is unreachable: for every stats with
`max_kpi_value_length > 15` the resulting font size is 28, never 24. -/
theorem C1_kpi_font_size_rule (cfg : PDFLayoutConfig) (log : List String)
    (stats : DocumentStats) :
    (10 < stats.max_kpi_value_length →
      ((adjustConfigBasedOnStats cfg log stats).1.kpi_card.font_size_value = 28 ∧
        msgKpiLong stats.max_kpi_value_length ∈ (adjustConfigBasedOnStats cfg log stats).2)) ∧
    (15 < stats.max_kpi_value_length →
      ((adjustConfigBasedOnStats cfg log stats).1.kpi_card.font_size_value = 28 ∧
        (adjustConfigBasedOnStats cfg log stats).1.kpi_card.font_size_value ≠ 24)) := by
  have key : 10 < stats.max_kpi_value_length →
      ((adjustConfigBasedOnStats cfg log stats).1.kpi_card.font_size_value = 28 ∧
        msgKpiLong stats.max_kpi_value_length ∈ (adjustConfigBasedOnStats cfg log stats).2) := by
    intro h
    simp only [adjustConfigBasedOnStats, rule1KpiFontSize, rule23GridColumns,
      rule4TableFont, rule5LineHeight, h, if_true]
    split <;> (repeat' split) <;> (first | rfl | simp)
  refine ⟨key, fun h15 => ?_⟩
  have h28 := (key (by omega)).1
  exact ⟨h28, by rw [h28]; decide⟩

/-- Witness for C1 at `max_kpi_value_length = 16`. -/
theorem C1_kpi_font_size_rule_witness :
    (adjustConfigBasedOnStats createDefaultConfig [] statsKpiLen16).1.kpi_card.font_size_value = 28 ∧
    msgKpiLong statsKpiLen16.max_kpi_value_length ∈
      (adjustConfigBasedOnStats createDefaultConfig [] statsKpiLen16).2 ∧
    (adjustConfigBasedOnStats createDefaultConfig [] statsKpiLen16).1.kpi_card.font_size_value ≠ 24 :=
  ⟨((C1_kpi_font_size_rule createDefaultConfig [] statsKpiLen16).1 (by decide)).1,
   ((C1_kpi_font_size_rule createDefaultConfig [] statsKpiLen16).1 (by decide)).2,
   ((C1_kpi_font_size_rule createDefaultConfig [] statsKpiLen16).2 (by decide)).2⟩

/-- C2: `kpi_count > 6` gives grid columns 3 and KPI card min height 100;
`kpi_count <= 2` gives grid columns 1; for `kpi_count` in 3..6 the grid
column count keeps the base config's value.  The first two rules are
mutually exclusive through the `elif`. -/
theorem C2_grid_columns_rule (cfg : PDFLayoutConfig) (log : List String)
    (stats : DocumentStats) :
    (6 < stats.kpi_count →
      ((adjustConfigBasedOnStats cfg log stats).1.grid.columns = 3 ∧
        (adjustConfigBasedOnStats cfg log stats).1.kpi_card.min_height = 100)) ∧
    (stats.kpi_count ≤ 2 →
      (adjustConfigBasedOnStats cfg log stats).1.grid.columns = 1) ∧
    (3 ≤ stats.kpi_count → stats.kpi_count ≤ 6 →
      (adjustConfigBasedOnStats cfg log stats).1.grid.columns = cfg.grid.columns) := by
  refine ⟨fun h => ?_, fun h => ?_, fun h3 h6 => ?_⟩
  · simp only [adjustConfigBasedOnStats, rule1KpiFontSize, rule23GridColumns,
      rule4TableFont, rule5LineHeight, h, if_true]
    (repeat' split) <;> (first | rfl | simp)
  · have h6 : ¬ 6 < stats.kpi_count := by omega
    simp only [adjustConfigBasedOnStats, rule1KpiFontSize, rule23GridColumns,
      rule4TableFont, rule5LineHeight, h, h6, if_true, if_false]
    (repeat' split) <;> (first | rfl | simp)
  · have hgt : ¬ 6 < stats.kpi_count := by omega
    have hle : ¬ stats.kpi_count ≤ 2 := by omega
    simp only [adjustConfigBasedOnStats, rule1KpiFontSize, rule23GridColumns,
      rule4TableFont, rule5LineHeight, hgt, hle, if_false]
    (repeat' split) <;> (first | rfl | simp)

/-- Witness for C2 at KPI counts 7, 2 and 4. -/
theorem C2_grid_columns_rule_witness :
    ((adjustConfigBasedOnStats createDefaultConfig [] statsKpi7).1.grid.columns = 3 ∧
      (adjustConfigBasedOnStats createDefaultConfig [] statsKpi7).1.kpi_card.min_height = 100) ∧
    (adjustConfigBasedOnStats createDefaultConfig [] statsKpi2).1.grid.columns = 1 ∧
    (adjustConfigBasedOnStats createDefaultConfig [] statsKpi4).1.grid.columns =
      createDefaultConfig.grid.columns :=
  ⟨(C2_grid_columns_rule createDefaultConfig [] statsKpi7).1 (by decide),
   (C2_grid_columns_rule createDefaultConfig [] statsKpi2).2.1 (by decide),
   (C2_grid_columns_rule createDefaultConfig [] statsKpi4).2.2 (by decide) (by decide)⟩

/-- C4: `max_table_columns > 6` gives table header font 11, body font 10,
cell padding 8; otherwise those three fields keep their base values. -/
theorem C4_table_shrink_rule (cfg : PDFLayoutConfig) (log : List String)
    (stats : DocumentStats) :
    (6 < stats.max_table_columns →
      ((adjustConfigBasedOnStats cfg log stats).1.table.font_size_header = 11 ∧
        (adjustConfigBasedOnStats cfg log stats).1.table.font_size_body = 10 ∧
        (adjustConfigBasedOnStats cfg log stats).1.table.cell_padding = 8)) ∧
    (stats.max_table_columns ≤ 6 →
      ((adjustConfigBasedOnStats cfg log stats).1.table.font_size_header =
          cfg.table.font_size_header ∧
        (adjustConfigBasedOnStats cfg log stats).1.table.font_size_body =
          cfg.table.font_size_body ∧
        (adjustConfigBasedOnStats cfg log stats).1.table.cell_padding =
          cfg.table.cell_padding)) := by
  refine ⟨fun h => ?_, fun h => ?_⟩
  · simp only [adjustConfigBasedOnStats, rule1KpiFontSize, rule23GridColumns,
      rule4TableFont, rule5LineHeight, h, if_true]
    (repeat' split) <;> (first | rfl | simp)
  · have hngt : ¬ 6 < stats.max_table_columns := by omega
    simp only [adjustConfigBasedOnStats, rule1KpiFontSize, rule23GridColumns,
      rule4TableFont, rule5LineHeight, hngt, if_false]
    (repeat' split) <;> (first | rfl | simp)

/-- Witness for C4 at 7 and 6 table columns. -/
theorem C4_table_shrink_rule_witness :
    ((adjustConfigBasedOnStats createDefaultConfig [] statsCols7).1.table.font_size_header = 11 ∧
      (adjustConfigBasedOnStats createDefaultConfig [] statsCols7).1.table.font_size_body = 10 ∧
      (adjustConfigBasedOnStats createDefaultConfig [] statsCols7).1.table.cell_padding = 8) ∧
    ((adjustConfigBasedOnStats createDefaultConfig [] statsCols6).1.table.font_size_header =
        createDefaultConfig.table.font_size_header ∧
      (adjustConfigBasedOnStats createDefaultConfig [] statsCols6).1.table.font_size_body =
        createDefaultConfig.table.font_size_body ∧
      (adjustConfigBasedOnStats createDefaultConfig [] statsCols6).1.table.cell_padding =
        createDefaultConfig.table.cell_padding) :=
  ⟨(C4_table_shrink_rule createDefaultConfig [] statsCols7).1 (by decide),
   (C4_table_shrink_rule createDefaultConfig [] statsCols6).2 (by decide)⟩

/-- When the statistics do not flag long text, no rule touches the line
heights. -/
theorem adjust_line_height_of_not_long (cfg : PDFLayoutConfig)
    (log : List String) (stats : DocumentStats)
    (h : stats.has_long_text = false) :
    (adjustConfigBasedOnStats cfg log stats).1.page.line_height =
        cfg.page.line_height ∧
      (adjustConfigBasedOnStats cfg log stats).1.callout.line_height =
        cfg.callout.line_height := by
  simp only [adjustConfigBasedOnStats, rule1KpiFontSize, rule23GridColumns,
    rule4TableFont, rule5LineHeight, h, Bool.false_eq_true, if_false]
  (repeat' split) <;> (first | rfl | simp)

/-- A children list made only of paragraphs of at most 500 characters is
not flagged as long text by the spec predicate. -/
theorem specLongChildren_all_short (l : List DocNode)
    (h : ∀ n ∈ l, ∃ t, n = DocNode.paragraph t ∧ t.length ≤ 500) :
    specLongChildren l = false := by
  induction l with
  | nil => rfl
  | cons c cs ih =>
      obtain ⟨t, rfl, ht⟩ := h c (List.mem_cons_self c cs)
      have hnot : ¬ 500 < t.length := by omega
      have ihcs := ih fun n hn => h n (List.mem_cons_of_mem _ hn)
      simp [specLongChildren, specLongNode, hnot, ihcs]

/-- C3: the analyzer sets `has_long_text` exactly when some paragraph
exceeds 500 characters or some callout content exceeds 200 characters
(formalized by the spec-side predicate `specLongSections`); whenever the
flag is set, the adjusted page and callout line heights are both 1.8; a
document containing only paragraphs of at most 500 characters leaves both
line heights at their base values. -/
theorem C3_long_text_propagation :
    (∀ sections : List SectionNode,
      (analyzeDocument sections).has_long_text = specLongSections sections) ∧
    (∀ (cfg : PDFLayoutConfig) (log : List String) (stats : DocumentStats),
      stats.has_long_text = true →
        ((adjustConfigBasedOnStats cfg log stats).1.page.line_height = 1.8 ∧
          (adjustConfigBasedOnStats cfg log stats).1.callout.line_height = 1.8)) ∧
    (∀ (sections : List SectionNode) (cfg : PDFLayoutConfig) (log : List String),
      (∀ sec ∈ sections, ∀ n ∈ sec.children,
          ∃ t, n = DocNode.paragraph t ∧ t.length ≤ 500) →
        ((adjustConfigBasedOnStats cfg log (analyzeDocument sections)).1.page.line_height =
            cfg.page.line_height ∧
          (adjustConfigBasedOnStats cfg log (analyzeDocument sections)).1.callout.line_height =
            cfg.callout.line_height)) := by
  have hana : ∀ sections : List SectionNode,
      (analyzeDocument sections).has_long_text = specLongSections sections := by
    intro sections
    rw [analyzeDocument, foldl_sections_has_long]
    rfl
  refine ⟨hana, fun cfg log stats h => ?_, fun sections cfg log h => ?_⟩
  · simp only [adjustConfigBasedOnStats, rule1KpiFontSize, rule23GridColumns,
      rule4TableFont, rule5LineHeight, h, if_true]
    (repeat' split) <;> (first | rfl | simp)
  · have hfalse : (analyzeDocument sections).has_long_text = false := by
      rw [hana]
      simp only [specLongSections, List.any_eq_false]
      intro sec hsec
      simp [specLongChildren_all_short sec.children (h sec hsec)]
    exact adjust_line_height_of_not_long cfg log _ hfalse

/-- Witness for C3: a single 501-character paragraph sets the flag, flagged
statistics raise both line heights to 1.8, and a document of 400-character
paragraphs keeps the base line heights. -/
theorem C3_long_text_propagation_witness :
    (analyzeDocument docLongPara).has_long_text = true ∧
    ((adjustConfigBasedOnStats createDefaultConfig [] statsLongText).1.page.line_height = 1.8 ∧
      (adjustConfigBasedOnStats createDefaultConfig [] statsLongText).1.callout.line_height = 1.8) ∧
    ((adjustConfigBasedOnStats createDefaultConfig []
        (analyzeDocument docShortParas)).1.page.line_height =
        createDefaultConfig.page.line_height ∧
      (adjustConfigBasedOnStats createDefaultConfig []
        (analyzeDocument docShortParas)).1.callout.line_height =
        createDefaultConfig.callout.line_height) :=
  ⟨(C3_long_text_propagation.1 docLongPara).trans
      (by
        have h501 : longParaText.length = 501 := by
          rw [longParaText]
          exact List.length_replicate 501 'a'
        simp [specLongSections, specLongChildren, specLongNode, docLongPara, h501]),
   C3_long_text_propagation.2.1 createDefaultConfig [] statsLongText rfl,
   C3_long_text_propagation.2.2 docShortParas createDefaultConfig []
     (by
        have h400 : shortParaText.length = 400 := by
          rw [shortParaText]
          exact List.length_replicate 400 'a'
        intro sec hsec n hn
        simp only [docShortParas, List.mem_singleton] at hsec
        subst hsec
        simp only [List.mem_cons, List.mem_singleton, List.not_mem_nil, or_false] at hn
        rcases hn with rfl | rfl <;> exact ⟨shortParaText, rfl, by omega⟩)⟩

/-- C5: round trip of persistence: saving a config and loading the saved
value yields an optimizer whose config equals the original, for every
config, instance log and optional log entry. -/
theorem C5_round_trip (x : PDFLayoutConfig) (log : List String)
    (entry : Option OptimizationRecord) :
    (loadConfig (some (saveConfig { config := x, optimization_log := log } entry))).map
        PDFLayoutOptimizer.config = Except.ok x := by
  cases x
  rfl

/-- C6: loading from a non-existent path gives the default configuration;
reconstruction errors when any of the six sub-records is missing; each of
the four boolean switches silently defaults to true when its key is
missing. -/
theorem C6_load_config_semantics :
    (loadConfig none = Except.ok (initOptimizer none) ∧
      (initOptimizer none).config = createDefaultConfig) ∧
    (∀ d : ConfigDict,
      (d.page = none ∨ d.kpi_card = none ∨ d.callout = none ∨ d.table = none ∨
        d.chart = none ∨ d.grid = none) →
      ∃ msg, PDFLayoutConfig.fromDict d = Except.error msg) ∧
    (∀ (p : PageLayout) (k : KPICardLayout) (c : CalloutLayout)
        (t : TableLayout) (ch : ChartLayout) (g : GridLayout)
        (a1 a2 a3 a4 : Option Bool),
      ∃ cfg, PDFLayoutConfig.fromDict
          { page := some p, kpi_card := some k, callout := some c,
            table := some t, chart := some ch, grid := some g,
            auto_adjust_font_size := a1, auto_adjust_grid_columns := a2,
            prevent_orphan_headers := a3, optimize_for_print := a4 } =
          Except.ok cfg ∧
        (a1 = none → cfg.auto_adjust_font_size = true) ∧
        (a2 = none → cfg.auto_adjust_grid_columns = true) ∧
        (a3 = none → cfg.prevent_orphan_headers = true) ∧
        (a4 = none → cfg.optimize_for_print = true)) := by
  refine ⟨⟨rfl, rfl⟩, fun d h => ?_, fun p k c t ch g a1 a2 a3 a4 => ?_⟩
  · obtain ⟨op, okc, oc, ot, och, og, a1, a2, a3, a4⟩ := d
    cases op <;> cases okc <;> cases oc <;> cases ot <;> cases och <;> cases og <;>
      first
        | exact ⟨_, rfl⟩
        | simp_all
  · refine ⟨_, rfl, fun h1 => ?_, fun h2 => ?_, fun h3 => ?_, fun h4 => ?_⟩
    · rw [show PDFLayoutConfig.auto_adjust_font_size _ = a1.getD true from rfl, h1]
      rfl
    · rw [show PDFLayoutConfig.auto_adjust_grid_columns _ = a2.getD true from rfl, h2]
      rfl
    · rw [show PDFLayoutConfig.prevent_orphan_headers _ = a3.getD true from rfl, h3]
      rfl
    · rw [show PDFLayoutConfig.optimize_for_print _ = a4.getD true from rfl, h4]
      rfl

/-- Witness for C6: a dict missing its `page` sub-record fails to load; a
dict with all switches absent loads with all four switches true. -/
theorem C6_load_config_semantics_witness :
    (∃ msg, PDFLayoutConfig.fromDict dictMissingPage = Except.error msg) ∧
    (∃ cfg, PDFLayoutConfig.fromDict dictNoSwitches = Except.ok cfg ∧
      cfg.auto_adjust_font_size = true ∧ cfg.auto_adjust_grid_columns = true ∧
      cfg.prevent_orphan_headers = true ∧ cfg.optimize_for_print = true) := by
  constructor
  · exact C6_load_config_semantics.2.1 dictMissingPage (Or.inl rfl)
  · obtain ⟨cfg, heq, h1, h2, h3, h4⟩ :=
      C6_load_config_semantics.2.2 {} {} {} {} {} {} none none none none
    exact ⟨cfg, heq, h1 rfl, h2 rfl, h3 rfl, h4 rfl⟩

/-- C7 counterexample: `_adjust_config_based_on_stats` appends to the
per-instance `optimization_log`, so hidden state does carry across calls:
calling the method twice on the same instance with the identical
`(baseConfig, stats)` input leaves a different `optimization_log` after the
second call than after the first. -/
theorem C7_purity_counterexample :
    (adjustConfigBasedOnStats createDefaultConfig
        (adjustConfigBasedOnStats createDefaultConfig [] statsLongText).2
        statsLongText).2 ≠
      (adjustConfigBasedOnStats createDefaultConfig [] statsLongText).2 := by
  decide

set_option maxHeartbeats 1600000 in
/-- C7 amended: the adjusted config depends only on `(baseConfig, stats)`
(it is independent of the instance log); the exit log is the entry log with
the call's entries appended as a suffix, and that suffix has exactly one
entry per fired rule and none otherwise; `optimize_for_document` clears the
instance log at the end of each pass, so no state persists across
optimization passes. -/
theorem C7_adjuster_state :
    (∀ (cfg : PDFLayoutConfig) (log : List String) (stats : DocumentStats),
      (adjustConfigBasedOnStats cfg log stats).1 =
          (adjustConfigBasedOnStats cfg [] stats).1 ∧
        (adjustConfigBasedOnStats cfg log stats).2 =
          log ++ (adjustConfigBasedOnStats cfg [] stats).2 ∧
        (adjustConfigBasedOnStats cfg [] stats).2.length =
          ((if 10 < stats.max_kpi_value_length then 1
            else if 15 < stats.max_kpi_value_length then 1 else 0) +
            (if 6 < stats.kpi_count then 1
              else if stats.kpi_count ≤ 2 then 1 else 0) +
            (if 6 < stats.max_table_columns then 1 else 0) +
            (if stats.has_long_text then 1 else 0))) ∧
    (∀ (self : PDFLayoutOptimizer) (sections : List SectionNode),
      (optimizeForDocument self sections).1.optimization_log = []) := by
  refine ⟨fun cfg log stats => ⟨?_, ?_, ?_⟩, fun self sections => rfl⟩
  · simp only [adjustConfigBasedOnStats, rule1KpiFontSize, rule23GridColumns,
      rule4TableFont, rule5LineHeight]
    (repeat' split) <;> (first | rfl | simp)
  · simp only [adjustConfigBasedOnStats, rule1KpiFontSize, rule23GridColumns,
      rule4TableFont, rule5LineHeight]
    (repeat' split) <;> simp
  · simp only [adjustConfigBasedOnStats, rule1KpiFontSize, rule23GridColumns,
      rule4TableFont, rule5LineHeight]
    (repeat' split) <;> simp

/-- C9: `optimize_for_document` returns the optimized config but leaves the
instance's stored config unchanged; the returned config is the one computed
by the adjustment step. -/
theorem C9_optimize_preserves_config (self : PDFLayoutOptimizer)
    (sections : List SectionNode) :
    (optimizeForDocument self sections).1.config = self.config ∧
    (optimizeForDocument self sections).2 =
      (adjustConfigBasedOnStats self.config self.optimization_log
        (analyzeDocument sections)).1 :=
  ⟨rfl, rfl⟩

/-- C10: the adjusted config differs from the base config in at most the
eight fields the rules write; every other field of every sub-record and all
four boolean switches keep the base config's values. -/
theorem C10_adjust_frame (cfg : PDFLayoutConfig) (log : List String)
    (stats : DocumentStats) :
    (adjustConfigBasedOnStats cfg log stats).1.page.font_size_base = cfg.page.font_size_base ∧
    (adjustConfigBasedOnStats cfg log stats).1.page.font_size_h1 = cfg.page.font_size_h1 ∧
    (adjustConfigBasedOnStats cfg log stats).1.page.font_size_h2 = cfg.page.font_size_h2 ∧
    (adjustConfigBasedOnStats cfg log stats).1.page.font_size_h3 = cfg.page.font_size_h3 ∧
    (adjustConfigBasedOnStats cfg log stats).1.page.font_size_h4 = cfg.page.font_size_h4 ∧
    (adjustConfigBasedOnStats cfg log stats).1.page.paragraph_spacing = cfg.page.paragraph_spacing ∧
    (adjustConfigBasedOnStats cfg log stats).1.page.section_spacing = cfg.page.section_spacing ∧
    (adjustConfigBasedOnStats cfg log stats).1.page.page_padding = cfg.page.page_padding ∧
    (adjustConfigBasedOnStats cfg log stats).1.page.max_content_width = cfg.page.max_content_width ∧
    (adjustConfigBasedOnStats cfg log stats).1.kpi_card.font_size_label = cfg.kpi_card.font_size_label ∧
    (adjustConfigBasedOnStats cfg log stats).1.kpi_card.font_size_change = cfg.kpi_card.font_size_change ∧
    (adjustConfigBasedOnStats cfg log stats).1.kpi_card.padding = cfg.kpi_card.padding ∧
    (adjustConfigBasedOnStats cfg log stats).1.kpi_card.value_max_length = cfg.kpi_card.value_max_length ∧
    (adjustConfigBasedOnStats cfg log stats).1.callout.font_size_title = cfg.callout.font_size_title ∧
    (adjustConfigBasedOnStats cfg log stats).1.callout.font_size_content = cfg.callout.font_size_content ∧
    (adjustConfigBasedOnStats cfg log stats).1.callout.padding = cfg.callout.padding ∧
    (adjustConfigBasedOnStats cfg log stats).1.callout.max_width = cfg.callout.max_width ∧
    (adjustConfigBasedOnStats cfg log stats).1.table.max_cell_width = cfg.table.max_cell_width ∧
    (adjustConfigBasedOnStats cfg log stats).1.table.overflow_strategy = cfg.table.overflow_strategy ∧
    (adjustConfigBasedOnStats cfg log stats).1.chart = cfg.chart ∧
    (adjustConfigBasedOnStats cfg log stats).1.grid.gap = cfg.grid.gap ∧
    (adjustConfigBasedOnStats cfg log stats).1.grid.responsive_breakpoint = cfg.grid.responsive_breakpoint ∧
    (adjustConfigBasedOnStats cfg log stats).1.auto_adjust_font_size = cfg.auto_adjust_font_size ∧
    (adjustConfigBasedOnStats cfg log stats).1.auto_adjust_grid_columns = cfg.auto_adjust_grid_columns ∧
    (adjustConfigBasedOnStats cfg log stats).1.prevent_orphan_headers = cfg.prevent_orphan_headers ∧
    (adjustConfigBasedOnStats cfg log stats).1.optimize_for_print = cfg.optimize_for_print := by
  simp only [adjustConfigBasedOnStats, rule1KpiFontSize, rule23GridColumns,
    rule4TableFont, rule5LineHeight]
  (repeat' split) <;> simp

set_option maxHeartbeats 1600000 in
/-- C8: for every config, the generated stylesheet contains rules marking
KPI cards, callouts, tables (hence their rows), and chart cards as
non-splittable across page boundaries, plus the global heading rule
preventing a heading from being stranded at the bottom of a page. -/
theorem C8_css_pagination_hints (self : PDFLayoutOptimizer) :
    containsStr (generatePdfCss self)
      (".kpi-card \x7b\n    padding: "
        ++ toString self.config.kpi_card.padding
        ++ "px !important;\n    min-height: "
        ++ toString self.config.kpi_card.min_height
        ++ "px;\n    break-inside: avoid;\n    page-break-inside: avoid;\n\x7d") ∧
    containsStr (generatePdfCss self)
      (".callout \x7b\n    padding: "
        ++ toString self.config.callout.padding
        ++ "px !important;\n    margin: 20px 0;\n    line-height: "
        ++ ratStr self.config.callout.line_height
        ++ ";\n    break-inside: avoid;\n    page-break-inside: avoid;\n\x7d") ∧
    containsStr (generatePdfCss self)
      "table \x7b\n    width: 100%;\n    break-inside: avoid;\n    page-break-inside: avoid;\n\x7d" ∧
    containsStr (generatePdfCss self)
      (".chart-card \x7b\n    min-height: "
        ++ toString self.config.chart.min_height
        ++ "px;\n    max-height: "
        ++ toString self.config.chart.max_height
        ++ "px;\n    padding: "
        ++ toString self.config.chart.padding
        ++ "px;\n    break-inside: avoid;\n    page-break-inside: avoid;\n\x7d") ∧
    containsStr (generatePdfCss self)
      "h1, h2, h3, h4, h5, h6 \x7b\n    break-after: avoid;\n    page-break-after: avoid;\n\x7d" := by
  refine ⟨?_, ?_, ?_, ?_, ?_⟩ <;>
    · simp only [generatePdfCss]
      repeat
        first
          | exact containsStr_append_right _ (containsStr_self _)
          | apply containsStr_append_left
